import Mathlib

/-!
# Shallow embedding of `tun-rs` (cross-platform TUN device library)

This file embeds the pure/observable parts of the two backends
(`src/linux.rs` and `src/freebsd.rs`) plus the shared configuration and
error types of `src/lib.rs` into Lean, and proves the frozen claims
about them.

Machine integers (`u16`, `u32`, `usize`/`isize`) are modelled as `Nat`
with explicit reduction `% 2^w` wherever the Rust code can overflow or
wrap (Rust release-profile wrapping semantics).  Byte buffers are
`List Nat` with each element a byte value.  Syscalls (`open`, `ioctl`,
`fstat`, `socket`, `readv`, `writev`, `close`) are modelled by an
explicit environment recording each call's success or failure, and the
functions return the request structures / byte streams the code would
hand to the kernel, so that struct contents and descriptor bookkeeping
are observable.
-/

namespace TunRs

/-- `TunError` from `src/lib.rs` (payload-carrying variants keep their
payloads; `IoError` and `Generic` abstract the wrapped OS error). -/
inductive TunError where
  | InvalidCString
  | DeviceNameRequired
  | DeviceNameContainsNuls (pos : Nat)
  | DeviceNameTooLong (len max : Nat)
  | DeviceNameNotUnicode
  | DeviceOpenFailed
  | DeviceCreateFailed
  | DeviceNotFound
  | Ipv4InvalidCidr (cidr : Nat)
  | BufferTooSmall
  | NotEnoughData
  | IoError
  | Generic
  deriving DecidableEq, Repr

/-- `std::net::IpAddr`: a v4 address is its `u32` value, a v6 address its
`u128` value. -/
inductive IpAddr where
  | v4 (a : Nat)
  | v6 (a : Nat)
  deriving DecidableEq, Repr

/-- `TunConfig` from `src/lib.rs`: optional `(ip, cidr)` pair, optional
device name (bytes of the `String`), and the packet-info toggle. -/
structure TunConfig where
  ip : Option (IpAddr × Nat)
  name : Option (List Nat)
  packet_info : Bool
  deriving DecidableEq, Repr

/-- Outcome of an operation that may return normally, return an error,
or panic (`unimplemented!` / `unreachable!`). -/
inductive ConfigOutcome (α : Type) where
  | ok (a : α)
  | err (e : TunError)
  | panic
  deriving DecidableEq, Repr

/-! ## FreeBSD backend: subnet-mask derivation (`src/freebsd.rs:205-209`)

```rust
let mask: u32 = match mask {
    32 => u32::MAX,
    x if x < 32 => u32::MAX - (2_u32.pow((32 - x).into())) + 1,
    x => return Err(TunError::Ipv4InvalidCidr { cidr: x }),
};
```
`2_u32.pow(32)` (prefix 0) and the subsequent `+ 1` wrap modulo `2^32`
under release-profile semantics; the model reduces both mod `2^32`. -/
def fbsdMask (x : Nat) : Except TunError Nat :=
  if x = 32 then .ok (2 ^ 32 - 1)
  else if x < 32 then .ok ((2 ^ 32 - 1 - 2 ^ (32 - x) % 2 ^ 32 + 1) % 2 ^ 32)
  else .error (.Ipv4InvalidCidr x)

/-- Number of set bits among the 32 low-order bits (popcount of a `u32`
value; vocabulary of the spec's property, not of the source). -/
def popCount32 (n : Nat) : Nat :=
  ((List.range 32).filter (fun i => n.testBit i)).length

/-- A `u32` value is a left-aligned run of one-bits iff its set bits are
exactly the bit positions `31, 30, …` down to some cutoff: no zero bit
sits above a one bit (spec vocabulary). -/
def leftAligned32 (n : Nat) : Prop :=
  ∀ i j, i < j → j < 32 → n.testBit i = true → n.testBit j = true

instance (n : Nat) : Decidable (leftAligned32 n) := by
  unfold leftAligned32
  have : (∀ i j, i < j → j < 32 → n.testBit i = true → n.testBit j = true) ↔
      (∀ j ∈ List.range 32, ∀ i ∈ List.range j, n.testBit i = true → n.testBit j = true) := by
    constructor
    · intro h j hj i hi
      exact h i j (List.mem_range.mp hi) (List.mem_range.mp hj)
    · intro h i j hij hj
      exact h j (List.mem_range.mpr hj) i (List.mem_range.mpr hij)
  exact decidable_of_iff _ this.symm

/-! ## Byte-order helpers (models of `u16::to_le_bytes`, `u16::to_be_bytes`,
`u16::from_le_bytes`, `u16::from_be_bytes`, `u32::to_be`, `u32::from_be_bytes`) -/

def u16ToLe (x : Nat) : List Nat := [x % 256, x / 256 % 256]

def u16ToBe (x : Nat) : List Nat := [x / 256 % 256, x % 256]

def u16FromLe (b0 b1 : Nat) : Nat := b0 + 256 * b1

def u16FromBe (b0 b1 : Nat) : Nat := 256 * b0 + b1

/-- Memory bytes (network order) of a `u32` after `.to_be()` /
`u32::to_be_bytes`. -/
def u32BeBytes (x : Nat) : List Nat :=
  [x / 2 ^ 24 % 256, x / 2 ^ 16 % 256, x / 2 ^ 8 % 256, x % 256]

/-- `u32::from_be_bytes` on a 4-byte buffer. -/
def u32FromBeBytes (b : List Nat) : Nat :=
  2 ^ 24 * b.getD 0 0 + 2 ^ 16 * b.getD 1 0 + 2 ^ 8 * b.getD 2 0 + b.getD 3 0

/-! ## Packet-info codec

The scatter/gather syscalls are modelled by the flat byte stream they
transfer: `writev` over the selected iovecs is the concatenation of the
selected buffers, and a successful `readv` delivering `data` fills the
selected iovecs (header first, when `packet_info` is set) from `data` in
order, leaving unfilled header bytes at their `0` initialisation.
`none` models a syscall returning `-1`. -/

/-- Byte stream handed to `writev` by Linux `write_packet`
(`src/linux.rs:178-209`): header iovecs (2 flags bytes in native/little
order, 2 family bytes in network order) are included exactly when
`packet_info` is set; with `pi = None` the hard-coded bytes are
`[0, 0]` and `[0, 2]`. -/
def linuxWritePacketBytes (packet_info : Bool) (buf : List Nat)
    (pi : Option (Nat × Nat)) : List Nat :=
  let hdr : List Nat × List Nat :=
    match pi with
    | some (flags, af) => (u16ToLe flags, u16ToBe af)
    | none => ([0, 0], [0, 2])
  if packet_info then hdr.1 ++ hdr.2 ++ buf else buf

/-- Linux `read_packet` (`src/linux.rs:141-176`) on a `readv` outcome.
With `packet_info` set, the first four delivered bytes land in the
header buffer (initialised to zero), flags decode little-endian, family
big-endian, and the reported size is `(n - 4) as usize`, i.e. the
`isize` subtraction cast to `usize`, which wraps modulo `2^64` when
fewer than 4 bytes were delivered. -/
def linuxReadPacket (packet_info : Bool) (res : Option (List Nat)) :
    Except TunError (Nat × (Nat × Nat)) :=
  match res with
  | none => .error .IoError
  | some data =>
    if packet_info then
      let hdr := fun i => data.getD i 0
      let flags := u16FromLe (hdr 0) (hdr 1)
      let af := u16FromBe (hdr 2) (hdr 3)
      let sz := (data.length + (2 ^ 64 - 4)) % 2 ^ 64
      .ok (sz, (flags, af))
    else
      .ok (data.length, (0, 0))

/-- FreeBSD `read_packet` (`src/freebsd.rs:332-363`): header iovec is
used only when `packet_info` is set (otherwise it stays zeroed), the
total byte count is returned unchanged, and the metadata is
`u32::from_be_bytes(hdr)` whatever was delivered. -/
def fbsdReadPacket (packet_info : Bool) (res : Option (List Nat)) :
    Except TunError (Nat × Nat) :=
  match res with
  | none => .error .IoError
  | some data =>
    let hdr := fun i => if packet_info then data.getD i 0 else 0
    .ok (data.length, u32FromBeBytes [hdr 0, hdr 1, hdr 2, hdr 3])

/-- Byte stream handed to `writev` by FreeBSD `write_packet`
(`src/freebsd.rs:370-396`): the 4-byte network-order family header is
included exactly when `packet_info` is set. -/
def fbsdWritePacketBytes (packet_info : Bool) (buf : List Nat) (af : Nat) :
    List Nat :=
  if packet_info then u32BeBytes af ++ buf else buf

/-! ## FreeBSD address configuration (`src/freebsd.rs:198-271`) -/

def IFNAMSIZ : Nat := 16

/-- `libc::AF_INET`. -/
def AF_INET : Nat := 2

/-- `libc::sockaddr_in` as filled by `configure`: `sin_addr` holds the
memory bytes of the `u32` after `.to_be()` (network order), making the
layout host-endianness independent. -/
structure SockaddrIn where
  sin_len : Nat
  sin_family : Nat
  sin_port : Nat
  sin_addr : List Nat
  deriving DecidableEq, Repr

/-- The three identical `sockaddr_in` initialisers of `configure`:
`sin_len = size_of::<sockaddr_in>()` (16), family `AF_INET`, port 0,
`s_addr = value.to_be()`, `sin_zero` omitted (always zero). -/
def mkSockaddrIn (value : Nat) : SockaddrIn :=
  { sin_len := 16, sin_family := AF_INET, sin_port := 0,
    sin_addr := u32BeBytes value }

/-- `IfAliasReq` from `src/freebsd.rs:45-61`. -/
structure IfAliasReq where
  ifra_name : List Nat
  ifra_addr : SockaddrIn
  ifra_broadaddr : SockaddrIn
  ifra_mask : SockaddrIn
  ifra_vhid : Int
  deriving DecidableEq, Repr

/-- Bitwise NOT on a `u32` value (`!mask` in Rust). -/
def u32not (m : Nat) : Nat := m ^^^ (2 ^ 32 - 1)

/-- The address-assignment arm of FreeBSD `configure`
(`src/freebsd.rs:199-257`): derives the mask from the prefix
(`fbsdMask`), computes `broadcast = !mask | ip`, and builds the
`SIOCAIFADDR` request; an IPv6 address hits `unimplemented!()`. -/
def fbsdConfigureIp (name : List Nat) (ip : IpAddr) (mask : Nat) :
    ConfigOutcome IfAliasReq :=
  match ip with
  | .v4 ip =>
    match fbsdMask mask with
    | .error e => .err e
    | .ok mask =>
      let broadcast := u32not mask ||| ip
      .ok { ifra_name := name,
            ifra_addr := mkSockaddrIn ip,
            ifra_broadaddr := mkSockaddrIn broadcast,
            ifra_mask := mkSockaddrIn mask,
            ifra_vhid := 0 }
  | .v6 _ => .panic

/-! ## Linux netlink requests (`src/linux.rs:84-139, 339-392`) -/

inductive RtAddrFamily where
  | Unspecified | Inet | Inet6
  deriving DecidableEq, Repr

inductive RtmType where
  | Newlink | Dellink | Newaddr
  deriving DecidableEq, Repr

inductive IfaAttr where
  | Address | Local
  deriving DecidableEq, Repr

/-- `Ipv6Addr::octets`: 16 network-order bytes of a `u128` value. -/
def u128BeBytes (x : Nat) : List Nat :=
  (List.range 16).map (fun i => x / 2 ^ (8 * (15 - i)) % 256)

/-- `octets()` of either address kind, as passed to `Rtattr::new`. -/
def ipOctets : IpAddr → List Nat
  | .v4 a => u32BeBytes a
  | .v6 a => u128BeBytes a

/-- `Ifaddrmsg` with its rtattr buffer. -/
structure Ifaddrmsg where
  ifa_family : RtAddrFamily
  ifa_prefixlen : Nat
  ifa_index : Int
  rtattrs : List (IfaAttr × List Nat)
  deriving DecidableEq, Repr

/-- `Ifinfomsg` (family, index, flags, change mask). -/
structure Ifinfomsg where
  ifi_family : RtAddrFamily
  ifi_index : Int
  ifi_flags : Nat
  ifi_change : Nat
  deriving DecidableEq, Repr

/-- A netlink request header with its payload (`Nlmsghdr`). -/
structure NlRequest (α : Type) where
  nl_type : RtmType
  payload : α
  deriving DecidableEq, Repr

/-- Linux `assign_ip` (`src/linux.rs:351-392`): opens a netlink socket
(`socketOk = false` models the connect failing, which converts the
`NlError` into `TunError::Generic`), then for *either* address family
builds and sends an `Rtm::Newaddr` request carrying the address and
prefix, the address twice (`Ifa::Address` and `Ifa::Local`), permanent
lifetime and universe scope. -/
def linuxAssignIp (socketOk : Bool) (index : Int) (ip : IpAddr) (mask : Nat) :
    ConfigOutcome (NlRequest Ifaddrmsg) :=
  if socketOk then
    .ok { nl_type := .Newaddr,
          payload :=
            { ifa_family := match ip with | .v4 _ => .Inet | .v6 _ => .Inet6,
              ifa_prefixlen := mask,
              ifa_index := index,
              rtattrs := [(.Address, ipOctets ip), (.Local, ipOctets ip)] } }
  else .err .Generic

/-! ## Linux device-name validation (`src/linux.rs:242-260`) -/

/-- Scan of `CString::new` for the first nul byte of the input
(`error.nul_position()` reports its byte offset). -/
def findNul : List Nat → Option Nat
  | [] => none
  | b :: rest => if b = 0 then some 0 else (findNul rest).map (· + 1)

/-- Device-name validation in Linux `create`: `CString::new` rejects a
name containing a nul byte, reporting the first nul's position; then
names longer than `IFNAMSIZ - 1` bytes are rejected with
`DeviceNameTooLong { len, max: IFNAMSIZ }`. -/
def linuxValidateName (name : List Nat) : Except TunError (List Nat) :=
  match findNul name with
  | some pos => .error (.DeviceNameContainsNuls pos)
  | none =>
    if name.length > IFNAMSIZ - 1 then
      .error (.DeviceNameTooLong name.length IFNAMSIZ)
    else .ok name

/-! ## `create`: descriptor bookkeeping (`src/freebsd.rs:115-187`,
`src/linux.rs:239-306`)

Each fallible syscall's outcome is an explicit environment field, and the
result is paired with the list of this call's descriptors still open
when `create` returns. -/

/-- The descriptors a single `create` call can open. -/
inductive Fd where
  | tunFd | ctrlSock
  deriving DecidableEq, Repr

/-- Outcomes of the syscalls FreeBSD `create` performs. -/
structure FbsdSys where
  openOk : Bool
  modeIoctlOk : Bool
  fstatOk : Bool
  devnameOk : Bool
  socketOk : Bool
  deriving DecidableEq, Repr

/-- `b"/dev/tun\0"`. -/
def TUN_DEVICE_PATH : List Nat := [47, 100, 101, 118, 47, 116, 117, 110, 0]

/-- `CStr::from_bytes_with_nul`: exactly one nul byte, at the end. -/
def cstrFromBytesWithNulOk (b : List Nat) : Bool :=
  b.getLast? == some 0 && b.dropLast.all (fun x => x != 0)

/-- FreeBSD `configure` (`src/freebsd.rs:198-271`) as a whole: an
invalid CIDR aborts with an error and an IPv6 address panics, while a
failing `SIOCAIFADDR` or `TUNSIFHEAD` ioctl is only logged, so every
other path returns `Ok(())`. -/
def fbsdConfigure (name : List Nat) (cfg : TunConfig) : ConfigOutcome Unit :=
  match cfg.ip with
  | some (ip, mask) =>
    match fbsdConfigureIp name ip mask with
    | .err e => .err e
    | .panic => .panic
    | .ok _ => .ok ()
  | none => .ok ()

/-- FreeBSD `create`: validate the constant device path, `open`
`/dev/tun`, set broadcast mode (`TUNSIFMODE`), resolve the device name
via `fstat`/`devname_r` (`devName` is the name the OS reports), open the
control datagram socket, build the handle, and run `configure`.  The
second component lists the descriptors still open at return: error
returns before the handle exists leave `tunFd` open (the code returns
without `close`), while a `configure` failure drops the constructed
handle, whose `Drop` closes both descriptors. -/
def fbsdCreate (sys : FbsdSys) (cfg : TunConfig) (devName : List Nat) :
    ConfigOutcome Unit × List Fd :=
  if !cstrFromBytesWithNulOk TUN_DEVICE_PATH then (.err .InvalidCString, [])
  else if !sys.openOk then (.err .IoError, [])
  else if !sys.modeIoctlOk then (.err .Generic, [.tunFd])
  else if !sys.fstatOk then (.err .IoError, [.tunFd])
  else if !sys.devnameOk then (.err .IoError, [.tunFd])
  else if !sys.socketOk then (.err .DeviceNotFound, [.tunFd])
  else
    match fbsdConfigure devName cfg with
    | .err e => (.err e, [])
    | .panic => (.panic, [])
    | .ok _ => (.ok (), [.tunFd, .ctrlSock])

/-- Outcomes of the syscalls Linux `create` performs. -/
structure LinuxSys where
  openOk : Bool
  tunsetiffOk : Bool
  ifindexOk : Bool
  netlinkOk : Bool
  deriving DecidableEq, Repr

/-- Linux `create`: require a name, validate it, `open` the clone
device, issue `TUNSETIFF`, look up the interface index, and run
`configure` (which assigns the IP over netlink when requested).  The
Linux `OsTun` has no `Drop` implementation, so every error return after
a successful `open` leaves `tunFd` open. -/
def linuxCreate (sys : LinuxSys) (cfg : TunConfig) (index : Int) :
    ConfigOutcome Unit × List Fd :=
  match cfg.name with
  | none => (.err .DeviceNameRequired, [])
  | some nm =>
    match linuxValidateName nm with
    | .error e => (.err e, [])
    | .ok _ =>
      if !sys.openOk then (.err .DeviceOpenFailed, [])
      else if !sys.tunsetiffOk then (.err .DeviceCreateFailed, [.tunFd])
      else if !sys.ifindexOk then (.err .DeviceNotFound, [.tunFd])
      else
        match cfg.ip with
        | some (ip, mask) =>
          match linuxAssignIp sys.netlinkOk index ip mask with
          | .err e => (.err e, [.tunFd])
          | .panic => (.panic, [.tunFd])
          | .ok _ => (.ok (), [.tunFd])
        | none => (.ok (), [.tunFd])

/-! ## Administrative up/down (`src/freebsd.rs:293-317`,
`src/linux.rs:88-139`) -/

/-- `libc::IFF_UP`. -/
def IFF_UP : Nat := 1

/-- FreeBSD `up`: the flag word written back by `SIOCSIFFLAGS` after
`get_ifflags` returned `cur` (`req.ifru_flags |= libc::IFF_UP`). -/
def fbsdUpFlags (cur : Nat) : Nat := cur ||| IFF_UP

/-- FreeBSD `down`: the flag word written back after `get_ifflags`
returned `cur` (`req.ifru_flags &= !libc::IFF_UP`, on the 32-bit
pattern). -/
def fbsdDownFlags (cur : Nat) : Nat := cur &&& u32not IFF_UP

/-- Linux `up` (`src/linux.rs:88-113`): a single `Rtm::Newlink` request
with flags `[Iff::Up]` and change mask `[Iff::Up]`; no read of the
current flags. -/
def linuxUpMsg (index : Int) : NlRequest Ifinfomsg :=
  { nl_type := .Newlink,
    payload := { ifi_family := .Unspecified, ifi_index := index,
                 ifi_flags := IFF_UP, ifi_change := IFF_UP } }

/-- Linux `down` (`src/linux.rs:115-139`): a single `Rtm::Dellink`
request with empty flags and change mask; no read of the current flags
and no flags write-back. -/
def linuxDownMsg (index : Int) : NlRequest Ifinfomsg :=
  { nl_type := .Dellink,
    payload := { ifi_family := .Unspecified, ifi_index := index,
                 ifi_flags := 0, ifi_change := 0 } }

/-! ## FreeBSD teardown (`src/freebsd.rs:399-425`) -/

inductive TeardownStep where
  | closePrimary | destroyIface | closeControl
  deriving DecidableEq, Repr

/-- Success/failure of each syscall `drop` issues. -/
structure DropEnv where
  closeFdOk : Bool
  destroyOk : Bool
  closeSockOk : Bool
  deriving DecidableEq, Repr

/-- FreeBSD `Drop::drop`: close the data descriptor, issue
`SIOCIFDESTROY` on the control socket, close the control socket — each
step runs unconditionally (the body has no early return), each failure
only appends a log line, and the function returns no error. The model
yields the executed step trace and the log. -/
def fbsdDrop (e : DropEnv) : List TeardownStep × List String :=
  let t1 : List TeardownStep := [.closePrimary]
  let log1 : List String :=
    if e.closeFdOk then [] else ["failed to close device fd"]
  let t2 := t1 ++ [.destroyIface]
  let log2 :=
    if e.destroyOk then log1 else log1 ++ ["failed to delete interface"]
  let t3 := t2 ++ [.closeControl]
  let log3 :=
    if e.closeSockOk then log2 else log2 ++ ["failed to close sock fd"]
  (t3, log3)

/-! ## Theorems -/

deriving instance DecidableEq for Except

/-- Decoding the network-order bytes of a `u32` value recovers it. -/
theorem u32FromBeBytes_u32BeBytes (x : Nat) (hx : x < 2 ^ 32) :
    u32FromBeBytes (u32BeBytes x) = x := by
  simp only [u32FromBeBytes, u32BeBytes, List.getD_cons_zero, List.getD_cons_succ]
  omega

/-- Every mask `fbsdMask` returns fits in a `u32`. -/
theorem fbsdMask_lt (p m : Nat) (h : fbsdMask p = .ok m) : m < 2 ^ 32 := by
  unfold fbsdMask at h
  split_ifs at h <;> simp_all <;> omega

/-- C1: For every CIDR prefix `p ≤ 32` the FreeBSD `configure` mask
computation yields exactly `!0u32 << (32 - p)` (reduced mod `2^32`), a
left-aligned run of one-bits whose popcount is `p`; every prefix `p > 32`
yields the invalid-CIDR error. -/
theorem fbsdMask_spec (p : Nat) :
    (p ≤ 32 →
      fbsdMask p = .ok (((2 ^ 32 - 1) <<< (32 - p)) % 2 ^ 32) ∧
      popCount32 (((2 ^ 32 - 1) <<< (32 - p)) % 2 ^ 32) = p ∧
      leftAligned32 (((2 ^ 32 - 1) <<< (32 - p)) % 2 ^ 32)) ∧
    (32 < p → fbsdMask p = .error (.Ipv4InvalidCidr p)) := by
  constructor
  · intro hp
    interval_cases p <;> exact ⟨rfl, by decide, by decide⟩
  · intro hp
    unfold fbsdMask
    rw [if_neg (by omega), if_neg (by omega)]

/-- Witness for C1: concrete evaluation at prefixes 24 and 33. -/
theorem fbsdMask_spec_witness :
    fbsdMask 24 = .ok (((2 ^ 32 - 1) <<< 8) % 2 ^ 32) ∧
    popCount32 (((2 ^ 32 - 1) <<< 8) % 2 ^ 32) = 24 ∧
    fbsdMask 33 = .error (.Ipv4InvalidCidr 33) :=
  ⟨((fbsdMask_spec 24).1 (by decide)).1,
   ((fbsdMask_spec 24).1 (by decide)).2.1,
   (fbsdMask_spec 33).2 (by decide)⟩

/-- C5: Variant-A (Linux) packet-info round-trip — for every 16-bit
flags/family pair and every payload, decoding what `write_packet`
encodes yields back the identical pair, and the decoded payload length
is the total transferred length minus 4. -/
theorem linux_packet_info_roundtrip (flags af : Nat) (payload : List Nat)
    (hf : flags < 2 ^ 16) (ha : af < 2 ^ 16) (hn : payload.length + 4 < 2 ^ 64) :
    linuxReadPacket true (some (linuxWritePacketBytes true payload (some (flags, af)))) =
      .ok ((linuxWritePacketBytes true payload (some (flags, af))).length - 4,
        (flags, af)) ∧
    (linuxWritePacketBytes true payload (some (flags, af))).length =
      payload.length + 4 := by
  have hlen : (linuxWritePacketBytes true payload (some (flags, af))).length =
      payload.length + 4 := by
    simp [linuxWritePacketBytes, u16ToLe, u16ToBe]
  refine ⟨?_, hlen⟩
  simp only [linuxWritePacketBytes, linuxReadPacket, u16ToLe, u16ToBe,
    u16FromLe, u16FromBe, List.cons_append, List.nil_append, List.getD_cons_zero,
    List.getD_cons_succ, List.length_cons, if_true, Except.ok.injEq,
    Prod.mk.injEq]
  omega

/-- Witness for C5 at flags `0x0001`, family `0x0800`, a 3-byte payload. -/
theorem linux_packet_info_roundtrip_witness :
    linuxReadPacket true
        (some (linuxWritePacketBytes true [1, 2, 3] (some (1, 0x0800)))) =
      .ok ((linuxWritePacketBytes true [1, 2, 3] (some (1, 0x0800))).length - 4,
        (1, 0x0800)) :=
  (linux_packet_info_roundtrip 1 0x0800 [1, 2, 3]
    (by decide) (by decide) (by decide)).1

/-- C3 (code bug): with packet-info enabled, a 2-byte underlying read —
shorter than the 4-byte header — does not produce an error: the Linux
backend returns `Ok` with the `isize → usize` cast wrapped size
`2^64 - 2` and metadata decoded from the partial, zero-padded header,
and the FreeBSD backend returns `Ok` with a family decoded from the
partial header. -/
theorem read_packet_partial_header_garbage :
    linuxReadPacket true (some [0x45, 0x00]) = .ok (2 ^ 64 - 2, (0x45, 0)) ∧
    fbsdReadPacket true (some [0x45, 0x00]) = .ok (2, 0x45000000) :=
  ⟨rfl, rfl⟩

/-- C6: For every IPv4 address and every valid prefix, the broadcast
field placed in the `SIOCAIFADDR` request decodes to `(!mask) | address`
(and the address and mask fields decode to the address and mask); at
address `192.168.70.100` (`0xC0A84664`) with prefix 24 the request
carries mask `255.255.255.0` and broadcast `192.168.70.255`. -/
theorem fbsd_broadcast_spec (name : List Nat) (a p m : Nat)
    (ha : a < 2 ^ 32) (hm : fbsdMask p = .ok m) :
    fbsdConfigureIp name (.v4 a) p =
      .ok { ifra_name := name,
            ifra_addr := mkSockaddrIn a,
            ifra_broadaddr := mkSockaddrIn (u32not m ||| a),
            ifra_mask := mkSockaddrIn m,
            ifra_vhid := 0 } ∧
    u32FromBeBytes (mkSockaddrIn (u32not m ||| a)).sin_addr = u32not m ||| a ∧
    u32FromBeBytes (mkSockaddrIn m).sin_addr = m ∧
    fbsdConfigureIp [116, 117, 110, 48] (.v4 0xC0A84664) 24 =
      .ok { ifra_name := [116, 117, 110, 48],
            ifra_addr := mkSockaddrIn 0xC0A84664,
            ifra_broadaddr := mkSockaddrIn 0xC0A846FF,
            ifra_mask := mkSockaddrIn 0xFFFFFF00,
            ifra_vhid := 0 } := by
  have hm32 : m < 2 ^ 32 := fbsdMask_lt p m hm
  refine ⟨?_, ?_, ?_, ?_⟩
  · simp [fbsdConfigureIp, hm]
  · exact u32FromBeBytes_u32BeBytes _
      (Nat.or_lt_two_pow (Nat.xor_lt_two_pow hm32 (by norm_num)) ha)
  · exact u32FromBeBytes_u32BeBytes _ hm32
  · decide

/-- Witness for C6 at `192.168.70.100/24`. -/
theorem fbsd_broadcast_spec_witness :
    u32FromBeBytes (mkSockaddrIn (u32not 0xFFFFFF00 ||| 0xC0A84664)).sin_addr =
      u32not 0xFFFFFF00 ||| 0xC0A84664 :=
  (fbsd_broadcast_spec [116, 117, 110, 48] 0xC0A84664 24 0xFFFFFF00
    (by norm_num) (by rfl)).2.1

/-- C4 counterexample: the Linux address-assignment path, handed the
IPv6 address `2001:db8::1` with prefix 64, neither panics nor returns
an unsupported-family error — it constructs the netlink `Newaddr`
request (family `Inet6`) and sends it, reporting success. -/
theorem linux_assign_ip_v6_succeeds :
    linuxAssignIp true 1 (.v6 0x20010DB8000000000000000000000001) 64 =
      .ok { nl_type := .Newaddr,
            payload :=
              { ifa_family := .Inet6, ifa_prefixlen := 64, ifa_index := 1,
                rtattrs :=
                  [(.Address, u128BeBytes 0x20010DB8000000000000000000000001),
                   (.Local, u128BeBytes 0x20010DB8000000000000000000000001)] } } :=
  rfl

/-- C4 amended: only the FreeBSD backend rejects IPv6 (by panicking via
`unimplemented!`); the Linux backend's `assign_ip` builds and sends a
netlink `Newaddr` request with family `Inet6` for every IPv6 address
and reports success. -/
theorem ipv6_assignment_behavior (name : List Nat) (idx : Int) (a m : Nat) :
    fbsdConfigureIp name (.v6 a) m = .panic ∧
    linuxAssignIp true idx (.v6 a) m =
      .ok { nl_type := .Newaddr,
            payload :=
              { ifa_family := .Inet6, ifa_prefixlen := m, ifa_index := idx,
                rtattrs := [(.Address, u128BeBytes a), (.Local, u128BeBytes a)] } } :=
  ⟨rfl, rfl⟩

/-- `findNul` misses nothing: a nul-free list scans to `none`. -/
theorem findNul_none (l : List Nat) (h : ∀ b ∈ l, b ≠ 0) : findNul l = none := by
  induction l with
  | nil => rfl
  | cons b rest ih =>
    simp only [findNul]
    rw [if_neg (h b (List.mem_cons_self b rest)),
      ih fun x hx => h x (List.mem_cons_of_mem b hx)]
    rfl

/-- `findNul` reports the offset of the first nul byte. -/
theorem findNul_first (l : List Nat) (i : Nat) (hi : i < l.length)
    (hz : l.getD i 1 = 0) (hfirst : ∀ j, j < i → l.getD j 1 ≠ 0) :
    findNul l = some i := by
  induction l generalizing i with
  | nil => simp at hi
  | cons b rest ih =>
    cases i with
    | zero =>
      simp only [List.getD_cons_zero] at hz
      simp [findNul, hz]
    | succ n =>
      have hb : b ≠ 0 := by
        have h0 := hfirst 0 (Nat.succ_pos n)
        simpa using h0
      have hrest := ih n (by simpa using hi) (by simpa using hz)
        (fun j hj => by
          have hj1 := hfirst (j + 1) (by omega)
          simpa using hj1)
      simp [findNul, hb, hrest]

/-- C7: a nul-free name of exactly `IFNAMSIZ - 1` (15) bytes passes
validation; a nul-free name one byte longer fails with the
name-too-long error; a name whose first nul byte sits at offset `i`
fails with `DeviceNameContainsNuls` reporting exactly `i`. -/
theorem linux_name_validation (name : List Nat) :
    (name.length = IFNAMSIZ - 1 → (∀ b ∈ name, b ≠ 0) →
      linuxValidateName name = .ok name) ∧
    (name.length = IFNAMSIZ → (∀ b ∈ name, b ≠ 0) →
      linuxValidateName name = .error (.DeviceNameTooLong IFNAMSIZ IFNAMSIZ)) ∧
    (∀ i, i < name.length → name.getD i 1 = 0 →
      (∀ j, j < i → name.getD j 1 ≠ 0) →
      linuxValidateName name = .error (.DeviceNameContainsNuls i)) := by
  refine ⟨?_, ?_, ?_⟩
  · intro hlen hnul
    simp [linuxValidateName, findNul_none name hnul, hlen, IFNAMSIZ]
  · intro hlen hnul
    simp [linuxValidateName, findNul_none name hnul, hlen, IFNAMSIZ]
  · intro i hi hz hfirst
    simp [linuxValidateName, findNul_first name i hi hz hfirst]

/-- Witness for C7: 15 `a`s pass, 16 `a`s are too long, and `a\0b`
is rejected at position 1. -/
theorem linux_name_validation_witness :
    linuxValidateName (List.replicate 15 97) = .ok (List.replicate 15 97) ∧
    linuxValidateName (List.replicate 16 97) =
      .error (.DeviceNameTooLong 16 16) ∧
    linuxValidateName [97, 0, 98] = .error (.DeviceNameContainsNuls 1) :=
  ⟨(linux_name_validation (List.replicate 15 97)).1 (by decide) (by decide),
   (linux_name_validation (List.replicate 16 97)).2.1 (by decide) (by decide),
   (linux_name_validation [97, 0, 98]).2.2 1 (by decide) (by decide)
     (by decide)⟩

/-- C2 (code bug): `create` leaks the already-opened tun descriptor on
error paths.  FreeBSD: when the `TUNSIFMODE` ioctl fails after `open`
succeeded, `create` returns the error with `tunFd` still open.  Linux:
when the `TUNSETIFF` ioctl fails after `open` succeeded, `create`
returns the error with `tunFd` still open (`OsTun` has no `Drop`). -/
theorem create_leaks_fd_on_error :
    fbsdCreate
        { openOk := true, modeIoctlOk := false, fstatOk := true,
          devnameOk := true, socketOk := true }
        { ip := none, name := none, packet_info := false }
        [116, 117, 110, 48] = (.err .Generic, [.tunFd]) ∧
    linuxCreate
        { openOk := true, tunsetiffOk := false, ifindexOk := true,
          netlinkOk := true }
        { ip := none, name := some [116, 117, 110, 48], packet_info := false }
        1 = (.err .DeviceCreateFailed, [.tunFd]) :=
  ⟨rfl, rfl⟩

/-- C8 counterexample: the Linux backend's `down()` performs no
read-modify-write of the administrative flags — its single netlink
request is an `Rtm::Dellink` (link delete) with empty flag and change
words, not a flags write-back (`Rtm::Newlink`). -/
theorem linux_down_not_flag_writeback :
    linuxDownMsg 1 =
      { nl_type := .Dellink,
        payload := { ifi_family := .Unspecified, ifi_index := 1,
                     ifi_flags := 0, ifi_change := 0 } } ∧
    RtmType.Dellink ≠ RtmType.Newlink :=
  ⟨rfl, by decide⟩

/-- C8 amended: on FreeBSD, `up()` writes back the current flag word
with only the up bit additionally set and `down()` with only the up bit
cleared, every other bit unchanged; on Linux, `up()` sends a single
`Newlink` request whose change mask covers only the up bit and `down()`
sends a `Dellink` request — neither reads the current flags. -/
theorem up_down_flag_semantics (cur i : Nat) (idx : Int)
    (hi : i < 32) (hne : i ≠ 0) :
    (fbsdUpFlags cur).testBit 0 = true ∧
    (fbsdDownFlags cur).testBit 0 = false ∧
    (fbsdUpFlags cur).testBit i = cur.testBit i ∧
    (fbsdDownFlags cur).testBit i = cur.testBit i ∧
    linuxUpMsg idx =
      { nl_type := .Newlink,
        payload := { ifi_family := .Unspecified, ifi_index := idx,
                     ifi_flags := IFF_UP, ifi_change := IFF_UP } } ∧
    linuxDownMsg idx =
      { nl_type := .Dellink,
        payload := { ifi_family := .Unspecified, ifi_index := idx,
                     ifi_flags := 0, ifi_change := 0 } } := by
  obtain ⟨n, rfl⟩ : ∃ n, i = n + 1 := ⟨i - 1, by omega⟩
  have h1 : Nat.testBit 1 (n + 1) = false := by
    simp [Nat.testBit_add_one]
  have h2 : Nat.testBit (2 ^ 32 - 1) (n + 1) = true := by
    rw [Nat.testBit_two_pow_sub_one]
    simpa using hi
  refine ⟨?_, ?_, ?_, ?_, rfl, rfl⟩
  · simp [fbsdUpFlags, IFF_UP, Nat.testBit_or, Nat.testBit_one_zero]
  · simp only [fbsdDownFlags, u32not, IFF_UP, Nat.testBit_and,
      Nat.testBit_xor, Nat.testBit_one_zero, Nat.testBit_two_pow_sub_one]
    simp
  · simp [fbsdUpFlags, IFF_UP, Nat.testBit_or, h1]
  · simp only [fbsdDownFlags, u32not, IFF_UP, Nat.testBit_and,
      Nat.testBit_xor, h1, h2]
    simp

/-- Witness for C8 at flag word `0x1002` and bit 12. -/
theorem up_down_flag_semantics_witness :
    (fbsdUpFlags 0x1002).testBit 12 = Nat.testBit 0x1002 12 ∧
    (fbsdDownFlags 0x1002).testBit 12 = Nat.testBit 0x1002 12 :=
  ⟨(up_down_flag_semantics 0x1002 12 1 (by decide) (by decide)).2.2.1,
   (up_down_flag_semantics 0x1002 12 1 (by decide) (by decide)).2.2.2.1⟩

/-- C9: for every combination of step failures, `Drop` executes exactly
the trace close-primary, destroy-interface, close-control in that
order (no step is skipped when an earlier one fails), returns no error,
and logs exactly the failed steps. -/
theorem fbsd_drop_teardown (e : DropEnv) :
    (fbsdDrop e).1 = [.closePrimary, .destroyIface, .closeControl] ∧
    (fbsdDrop e).2.length =
      (if e.closeFdOk then 0 else 1) + (if e.destroyOk then 0 else 1) +
        (if e.closeSockOk then 0 else 1) := by
  obtain ⟨c1, c2, c3⟩ := e
  cases c1 <;> cases c2 <;> cases c3 <;> exact ⟨rfl, rfl⟩

/-- C10: Linux `write_packet` with `packet_info` enabled and `pi = None`
prepends the header bytes `[0, 0, 0, 2]` — flags bytes `[0, 0]`, family
bytes `[0, 2]`, which decode (network order) to family 2, not 0. -/
theorem linux_write_packet_none_header (buf : List Nat) :
    linuxWritePacketBytes true buf none = 0 :: 0 :: 0 :: 2 :: buf ∧
    u16FromBe 0 2 = 2 :=
  ⟨rfl, rfl⟩

end TunRs
